import Mathlib

/-!
# Verification of the objaverse-3d-video-generator orchestration core

This file gives a shallow embedding, in Lean 4, of the job-dispatch /
retry / dataset-assembly engine of the repository
(`src/shared/renderer.py`, `src/shared/objects.py`,
`src/tasks/shape_extrapolation.py`, `src/tasks/occlusion_dynamics.py`,
`src/shared/blender_render.py`) and proves the testable properties the
specification states about it.

External effects (the Blender subprocess, the filesystem, `random.sample`,
`random.choice`, the PIL image decoder, the objaverse resolution service)
are modelled as explicit oracle parameters; machine state that the code
reads and writes (the per-job output directory) is modelled as an explicit
value threaded through the computation.  Python code that may raise is
embedded via `Except` — including statements no handler protects, such
as the output-directory clearing loop; code whose exceptions are all
absorbed is in addition given a plain (total) form, and the two
semantics are related by theorem on the states where the code cannot
raise.
-/

namespace Objaverse

/-! ## Filesystem model

A job's output directory is a flat sequence of entries, each with a name,
a byte size, and a flag recording whether the entry is a directory rather
than a regular file.  `Path.glob("*")` enumerates the entries,
`Path.exists` tests membership, `Path.stat().st_size` reads the size, and
`Path.unlink()` removes a regular file but raises `IsADirectoryError` on
a directory. -/

/-- One entry of a job's output directory. -/
structure FileEntry where
  name : String
  size : Nat
  isDir : Bool
  deriving Repr, DecidableEq

/-- Contents of a job's output directory (`src/shared/renderer.py` only
ever looks at names and byte sizes of the files in it). -/
abbrev Dir := List FileEntry

/-- `(out / name).exists()` / `.stat()` combined: the entry of name
`n` in directory `d`, if present. -/
def findFile (d : Dir) (n : String) : Option FileEntry :=
  d.find? (fun e => e.name == n)

/-! ## RenderInvoker: `render_video_task` (src/shared/renderer.py:38-70)

The Blender subprocess is opaque: one invocation either completes with a
return code and captured standard output, times out
(`subprocess.TimeoutExpired`), or raises some other exception.  That is
the whole interface the `try` block of `render_video_task` observes. -/

/-- Outcome of one `subprocess.run` call on the renderer: normal
completion (with return code and stdout), timeout, or any other raised
exception. -/
inductive ProcOutcome where
  | completed (returncode : Int) (stdout : String)
  | timedOut
  | raised
  deriving Repr, DecidableEq

/-- The Python exceptions the embedded code can raise:
`subprocess.TimeoutExpired` and a generic `Exception` (the two classes
named by the `except` clause of `render_video_task`), and the
`IsADirectoryError` that `Path.unlink()` raises on a directory entry
(a subclass of `OSError`, hence of `Exception`). -/
inductive PyErr where
  | timeoutExpired
  | exception
  | isADirectoryError
  deriving Repr, DecidableEq

/-- The success sentinel the Blender-side script prints on completion. -/
def renderSuccessSentinel : String := "RENDER_SUCCESS"

/-- Auxiliary for the substring test: does the first character list
start the second? -/
def startsChars : List Char → List Char → Bool
  | [], _ => true
  | _ :: _, [] => false
  | c :: cs, d :: ds => c == d && startsChars cs ds

/-- Substring containment on character lists: the pattern starts at some
position of the text. -/
def containsChars (pat : List Char) : List Char → Bool
  | [] => startsChars pat []
  | d :: ds => startsChars pat (d :: ds) || containsChars pat ds

/-- Python's `"RENDER_SUCCESS" in result.stdout` substring test. -/
def containsSentinel (out : String) : Bool :=
  containsChars renderSuccessSentinel.data out.data

/-- The `try` block of `render_video_task`: evaluate
`result.returncode == 0 and "RENDER_SUCCESS" in result.stdout` when the
subprocess completed, propagate the exception otherwise. -/
def render_video_task_run (o : ProcOutcome) : Except PyErr Bool :=
  match o with
  | .completed rc out => .ok (decide (rc = 0) && containsSentinel out)
  | .timedOut => .error .timeoutExpired
  | .raised => .error .exception

/-- The `except (subprocess.TimeoutExpired, Exception): return False`
clause: every exception class of `PyErr` falls under `Exception`
(`IsADirectoryError` included, though the `try` block never produces
it), so all are mapped to `False`. -/
def handleRenderExceptions (e : Except PyErr Bool) : Except PyErr Bool :=
  match e with
  | .ok b => .ok b
  | .error .timeoutExpired => .ok false
  | .error .exception => .ok false
  | .error .isADirectoryError => .ok false

/-- `render_video_task` (src/shared/renderer.py:38-70): the `try` block
followed by the exception handler; total, returns a plain boolean. -/
def render_video_task (o : ProcOutcome) : Bool :=
  match render_video_task_run o with
  | .ok b => b
  | .error .timeoutExpired => false
  | .error .exception => false
  | .error .isADirectoryError => false

/-! ## RetryingRenderJob: `render_with_retry` (src/shared/renderer.py:73-111)

Oracles:
* `render attempt objs` — the observable effect of clearing the output
  directory and running one Blender invocation with object list `objs`
  at loop index `attempt`: the subprocess outcome together with the
  files the subprocess left in the (previously emptied) directory;
* `sample attempt pool k` — the value `random.sample(pool, k)` returns
  at loop index `attempt`.  The oracle is an arbitrary function of the
  attempt index alone, so consecutive draws are unconstrained by one
  another (the same subset may recur; nothing forces it to differ).

For verification the function also returns the per-attempt trace: the
object list used, the subprocess outcome, the directory contents the
attempt left behind, and whether the attempt passed validation. -/

/-- One performed attempt of the retry loop. -/
structure AttemptRecord where
  objs : List String
  outcome : ProcOutcome
  written : Dir
  valid : Bool
  deriving Repr, DecidableEq

/-- The validation gate of one attempt (src/shared/renderer.py:101-103):
`video_file.exists() and video_file.stat().st_size > min_video_size`
for `video_file = out / "ground_truth.mp4"`. -/
def artifactValid (d : Dir) (min_video_size : Nat) : Bool :=
  match findFile d "ground_truth.mp4" with
  | some e => decide (min_video_size < e.size)
  | none => false

/-- The object substitution performed after a failed attempt
(src/shared/renderer.py:105-109): when further attempts remain
(`attempt < max_retries - 1`) and the shared pool is nonempty, redraw
`random.sample(all_objects, min(num_objects, len(all_objects)))`;
otherwise keep the current object list. -/
def retryNext (sample : Nat → List String → Nat → List String)
    (all_objects : List String) (num_objects max_retries attempt : Nat)
    (current_objs : List String) : List String :=
  if attempt < max_retries - 1 ∧ all_objects ≠ [] then
    sample attempt all_objects (min num_objects all_objects.length)
  else current_objs

/-- The `for attempt in range(max_retries)` loop of `render_with_retry`,
recursing on the list of remaining loop indices.  Returns the final
boolean, the final directory contents, and the trace of performed
attempts. -/
def retryLoop (render : Nat → List String → ProcOutcome × Dir)
    (sample : Nat → List String → Nat → List String)
    (all_objects : List String) (num_objects min_video_size max_retries : Nat) :
    List Nat → List String → Dir → Bool × Dir × List AttemptRecord
  | [], _, dir => (false, dir, [])
  | attempt :: rest, current_objs, _dir =>
    let r := render attempt current_objs
    let success := render_video_task r.1
    let valid := success && artifactValid r.2 min_video_size
    let arec : AttemptRecord := ⟨current_objs, r.1, r.2, valid⟩
    if valid then
      (true, r.2, [arec])
    else
      let next := retryNext sample all_objects num_objects max_retries attempt
        current_objs
      let res := retryLoop render sample all_objects num_objects min_video_size
        max_retries rest next r.2
      (res.1, res.2.1, arec :: res.2.2)

/-- `render_with_retry` (src/shared/renderer.py:73-111): run the retry
loop over attempt indices `0, …, max_retries - 1`, starting from the
caller-supplied `object_paths` and the prior state `output_dir` of the
output directory. -/
def render_with_retry (render : Nat → List String → ProcOutcome × Dir)
    (sample : Nat → List String → Nat → List String)
    (object_paths all_objects : List String) (output_dir : Dir)
    (num_objects min_video_size max_retries : Nat) :
    Bool × Dir × List AttemptRecord :=
  retryLoop render sample all_objects num_objects min_video_size max_retries
    (List.range max_retries) object_paths output_dir

/-- The directory-clearing loop `for f in out.glob("*"): f.unlink()`
(src/shared/renderer.py:94-95): unlink each entry in turn;
`Path.unlink()` raises `IsADirectoryError` at the first entry that is a
directory rather than a regular file.  `render_with_retry` wraps this
loop in no handler. -/
def clearDir : Dir → Except PyErr Unit
  | [] => .ok ()
  | e :: rest => if e.isDir then .error .isADirectoryError else clearDir rest

/-- A directory state consisting of regular files only (what the
renderer subprocess and the scheduler themselves ever put there). -/
def regularDir (d : Dir) : Bool :=
  d.all (fun e => !e.isDir)

/-- Exception-level semantics of the same loop: the directory-clearing
loop is embedded as the fallible, unhandled `clearDir`, and the
subprocess call as the fallible `render_video_task_run` run through the
`except` clause `handleRenderExceptions`; every other statement of the
loop body is exception-free.  `render_with_retry` itself installs no
handler, so an exception escaping the body (in particular a `clearDir`
error) surfaces here as `.error`. -/
def retryLoopRun (render : Nat → List String → ProcOutcome × Dir)
    (sample : Nat → List String → Nat → List String)
    (all_objects : List String) (num_objects min_video_size max_retries : Nat) :
    List Nat → List String → Dir → Except PyErr (Bool × Dir × List AttemptRecord)
  | [], _, dir => .ok (false, dir, [])
  | attempt :: rest, current_objs, dir => do
    let _ ← clearDir dir
    let r := render attempt current_objs
    let success ← handleRenderExceptions (render_video_task_run r.1)
    let valid := success && artifactValid r.2 min_video_size
    let arec : AttemptRecord := ⟨current_objs, r.1, r.2, valid⟩
    if valid then
      pure (true, r.2, [arec])
    else
      let next := retryNext sample all_objects num_objects max_retries attempt
        current_objs
      let res ← retryLoopRun render sample all_objects num_objects min_video_size
        max_retries rest next r.2
      pure (res.1, res.2.1, arec :: res.2.2)

/-- Exception-level semantics of `render_with_retry`. -/
def render_with_retry_run (render : Nat → List String → ProcOutcome × Dir)
    (sample : Nat → List String → Nat → List String)
    (object_paths all_objects : List String) (output_dir : Dir)
    (num_objects min_video_size max_retries : Nat) :
    Except PyErr (Bool × Dir × List AttemptRecord) :=
  retryLoopRun render sample all_objects num_objects min_video_size max_retries
    (List.range max_retries) object_paths output_dir


/-! ## Structural lemmas about the retry loop -/

/-- The handler of `render_video_task` absorbs every exception class:
running the `try` block through the `except` clause always yields the
boolean that the total `render_video_task` computes. -/
theorem handleRenderExceptions_run (o : ProcOutcome) :
    handleRenderExceptions (render_video_task_run o) =
      Except.ok (render_video_task o) := by
  cases o <;> rfl

/-- Loop unfolding: no attempt indices remain. -/
theorem retryLoop_nil (R : Nat → List String → ProcOutcome × Dir)
    (S : Nat → List String → Nat → List String) (pool : List String)
    (k minv m : Nat) (objs : List String) (dir : Dir) :
    retryLoop R S pool k minv m [] objs dir = (false, dir, []) := rfl

/-- Loop unfolding: the next attempt passes validation, so the loop
stops with `True` and records exactly this attempt. -/
theorem retryLoop_cons_valid (R : Nat → List String → ProcOutcome × Dir)
    (S : Nat → List String → Nat → List String) (pool : List String)
    (k minv m a : Nat) (rest : List Nat) (objs : List String) (dir : Dir)
    (hv : (render_video_task (R a objs).1 && artifactValid (R a objs).2 minv) = true) :
    retryLoop R S pool k minv m (a :: rest) objs dir =
      (true, (R a objs).2, [⟨objs, (R a objs).1, (R a objs).2, true⟩]) := by
  simp only [retryLoop]
  rw [hv]
  simp

/-- Loop unfolding: the next attempt fails validation, so the loop
records it and continues on the substituted object list. -/
theorem retryLoop_cons_invalid (R : Nat → List String → ProcOutcome × Dir)
    (S : Nat → List String → Nat → List String) (pool : List String)
    (k minv m a : Nat) (rest : List Nat) (objs : List String) (dir : Dir)
    (hv : (render_video_task (R a objs).1 && artifactValid (R a objs).2 minv) = false) :
    retryLoop R S pool k minv m (a :: rest) objs dir =
      ((retryLoop R S pool k minv m rest (retryNext S pool k m a objs) (R a objs).2).1,
       (retryLoop R S pool k minv m rest (retryNext S pool k m a objs) (R a objs).2).2.1,
       ⟨objs, (R a objs).1, (R a objs).2, false⟩ ::
         (retryLoop R S pool k minv m rest (retryNext S pool k m a objs) (R a objs).2).2.2) := by
  simp only [retryLoop]
  rw [hv]
  simp

/-- The loop performs at most one attempt per remaining loop index. -/
theorem retryLoop_trace_length_le (R : Nat → List String → ProcOutcome × Dir)
    (S : Nat → List String → Nat → List String) (pool : List String)
    (k minv m : Nat) :
    ∀ (l : List Nat) (objs : List String) (dir : Dir),
      (retryLoop R S pool k minv m l objs dir).2.2.length ≤ l.length := by
  intro l
  induction l with
  | nil => intro objs dir; simp [retryLoop_nil]
  | cons a rest ih =>
    intro objs dir
    cases hv : (render_video_task (R a objs).1 && artifactValid (R a objs).2 minv) with
    | true =>
      rw [retryLoop_cons_valid R S pool k minv m a rest objs dir hv]
      simp
    | false =>
      rw [retryLoop_cons_invalid R S pool k minv m a rest objs dir hv]
      simpa using ih _ _

/-- If the loop returns `False`, every remaining loop index was consumed
by an attempt. -/
theorem retryLoop_false_trace_length (R : Nat → List String → ProcOutcome × Dir)
    (S : Nat → List String → Nat → List String) (pool : List String)
    (k minv m : Nat) :
    ∀ (l : List Nat) (objs : List String) (dir : Dir),
      (retryLoop R S pool k minv m l objs dir).1 = false →
      (retryLoop R S pool k minv m l objs dir).2.2.length = l.length := by
  intro l
  induction l with
  | nil => intro objs dir _; simp [retryLoop_nil]
  | cons a rest ih =>
    intro objs dir h
    cases hv : (render_video_task (R a objs).1 && artifactValid (R a objs).2 minv) with
    | true =>
      rw [retryLoop_cons_valid R S pool k minv m a rest objs dir hv] at h
      simp at h
    | false =>
      rw [retryLoop_cons_invalid R S pool k minv m a rest objs dir hv] at h ⊢
      simpa using ih _ _ h

/-- The loop returns `True` exactly when some attempt in its trace
passed validation. -/
theorem retryLoop_true_iff (R : Nat → List String → ProcOutcome × Dir)
    (S : Nat → List String → Nat → List String) (pool : List String)
    (k minv m : Nat) :
    ∀ (l : List Nat) (objs : List String) (dir : Dir),
      (retryLoop R S pool k minv m l objs dir).1 = true ↔
      ∃ arec ∈ (retryLoop R S pool k minv m l objs dir).2.2, arec.valid = true := by
  intro l
  induction l with
  | nil => intro objs dir; simp [retryLoop_nil]
  | cons a rest ih =>
    intro objs dir
    cases hv : (render_video_task (R a objs).1 && artifactValid (R a objs).2 minv) with
    | true =>
      rw [retryLoop_cons_valid R S pool k minv m a rest objs dir hv]
      simp
    | false =>
      rw [retryLoop_cons_invalid R S pool k minv m a rest objs dir hv]
      simp [ih]

/-- Every attempt of the trace except possibly the last one failed
validation (a validated attempt ends the loop at once). -/
theorem retryLoop_not_last_invalid (R : Nat → List String → ProcOutcome × Dir)
    (S : Nat → List String → Nat → List String) (pool : List String)
    (k minv m : Nat) :
    ∀ (l : List Nat) (objs : List String) (dir : Dir) (i : Nat) (arec : AttemptRecord),
      (retryLoop R S pool k minv m l objs dir).2.2[i]? = some arec →
      i + 1 < (retryLoop R S pool k minv m l objs dir).2.2.length →
      arec.valid = false := by
  intro l
  induction l with
  | nil => intro objs dir i arec hg h; simp [retryLoop_nil] at h
  | cons a rest ih =>
    intro objs dir i arec hg h
    cases hv : (render_video_task (R a objs).1 && artifactValid (R a objs).2 minv) with
    | true =>
      rw [retryLoop_cons_valid R S pool k minv m a rest objs dir hv] at h
      simp at h
    | false =>
      rw [retryLoop_cons_invalid R S pool k minv m a rest objs dir hv] at hg h
      match i with
      | 0 =>
        simp only [List.getElem?_cons_zero, Option.some.injEq] at hg
        subst hg
        rfl
      | j + 1 =>
        simp only [List.getElem?_cons_succ] at hg
        simp only [List.length_cons, Nat.add_lt_add_iff_right] at h
        exact ih _ _ j arec hg h

/-- The first attempt of the trace uses the caller-supplied object
list. -/
theorem retryLoop_get_zero_objs (R : Nat → List String → ProcOutcome × Dir)
    (S : Nat → List String → Nat → List String) (pool : List String)
    (k minv m : Nat) :
    ∀ (l : List Nat) (objs : List String) (dir : Dir) (arec : AttemptRecord),
      (retryLoop R S pool k minv m l objs dir).2.2[0]? = some arec →
      arec.objs = objs := by
  intro l
  match l with
  | [] => intro objs dir arec hg; simp [retryLoop_nil] at hg
  | a :: rest =>
    intro objs dir arec hg
    cases hv : (render_video_task (R a objs).1 && artifactValid (R a objs).2 minv) with
    | true =>
      rw [retryLoop_cons_valid R S pool k minv m a rest objs dir hv] at hg
      simp only [List.getElem?_cons_zero, Option.some.injEq] at hg
      subst hg
      rfl
    | false =>
      rw [retryLoop_cons_invalid R S pool k minv m a rest objs dir hv] at hg
      simp only [List.getElem?_cons_zero, Option.some.injEq] at hg
      subst hg
      rfl

/-- Shape of the `i`-th performed attempt: it pairs the `i`-th remaining
loop index with one renderer invocation on its recorded object list, and
its validity flag is the conjunction of the invocation result with the
artifact check. -/
theorem retryLoop_get_shape (R : Nat → List String → ProcOutcome × Dir)
    (S : Nat → List String → Nat → List String) (pool : List String)
    (k minv m : Nat) :
    ∀ (l : List Nat) (objs : List String) (dir : Dir) (i : Nat) (arec : AttemptRecord),
      (retryLoop R S pool k minv m l objs dir).2.2[i]? = some arec →
      ∃ attempt, l[i]? = some attempt ∧
        arec.outcome = (R attempt arec.objs).1 ∧
        arec.written = (R attempt arec.objs).2 ∧
        arec.valid = (render_video_task arec.outcome &&
          artifactValid arec.written minv) := by
  intro l
  induction l with
  | nil => intro objs dir i arec hg; simp [retryLoop_nil] at hg
  | cons a rest ih =>
    intro objs dir i arec hg
    cases hv : (render_video_task (R a objs).1 && artifactValid (R a objs).2 minv) with
    | true =>
      rw [retryLoop_cons_valid R S pool k minv m a rest objs dir hv] at hg
      match i with
      | 0 =>
        simp only [List.getElem?_cons_zero, Option.some.injEq] at hg
        subst hg
        exact ⟨a, by simp, rfl, rfl, hv.symm⟩
      | j + 1 => simp at hg
    | false =>
      rw [retryLoop_cons_invalid R S pool k minv m a rest objs dir hv] at hg
      match i with
      | 0 =>
        simp only [List.getElem?_cons_zero, Option.some.injEq] at hg
        subst hg
        exact ⟨a, by simp, rfl, rfl, hv.symm⟩
      | j + 1 =>
        simp only [List.getElem?_cons_succ] at hg
        obtain ⟨attempt, hga, rest_shape⟩ := ih _ _ j arec hg
        exact ⟨attempt, by simpa using hga, rest_shape⟩

/-- Object substitution across consecutive attempts: the `(i+1)`-st
attempt of the trace uses exactly the list `retryNext` computes from the
`i`-th attempt (a fresh `random.sample` draw when attempts remain and
the pool is nonempty, the unchanged list otherwise). -/
theorem retryLoop_get_succ_objs (R : Nat → List String → ProcOutcome × Dir)
    (S : Nat → List String → Nat → List String) (pool : List String)
    (k minv m : Nat) :
    ∀ (l : List Nat) (objs : List String) (dir : Dir) (i : Nat)
      (arec arec2 : AttemptRecord) (attempt : Nat),
      (retryLoop R S pool k minv m l objs dir).2.2[i]? = some arec →
      (retryLoop R S pool k minv m l objs dir).2.2[i + 1]? = some arec2 →
      l[i]? = some attempt →
      arec2.objs = retryNext S pool k m attempt arec.objs := by
  intro l
  induction l with
  | nil => intro objs dir i arec arec2 attempt hg _ _; simp [retryLoop_nil] at hg
  | cons a rest ih =>
    intro objs dir i arec arec2 attempt hg hg2 hl
    cases hv : (render_video_task (R a objs).1 && artifactValid (R a objs).2 minv) with
    | true =>
      rw [retryLoop_cons_valid R S pool k minv m a rest objs dir hv] at hg hg2
      match i with
      | 0 => simp at hg2
      | j + 1 => simp at hg
    | false =>
      rw [retryLoop_cons_invalid R S pool k minv m a rest objs dir hv] at hg hg2
      match i with
      | 0 =>
        simp only [List.getElem?_cons_zero, Option.some.injEq] at hg hl
        simp only [List.getElem?_cons_succ] at hg2
        subst hg hl
        exact retryLoop_get_zero_objs R S pool k minv m rest _ _ arec2 hg2
      | j + 1 =>
        simp only [List.getElem?_cons_succ] at hg hg2 hl
        exact ih _ _ j arec arec2 attempt hg hg2 hl

/-- Unlinking a directory state of regular files only never raises. -/
theorem clearDir_regular (d : Dir) (h : regularDir d = true) :
    clearDir d = Except.ok () := by
  induction d with
  | nil => rfl
  | cons e rest ih =>
    rw [regularDir, List.all_cons, Bool.and_eq_true, Bool.not_eq_true'] at h
    rw [clearDir, if_neg (by simp [h.1])]
    exact ih h.2

/-- Exception-level semantics agrees with the total semantics on the
states the program produces: for every renderer behaviour (including
timeouts and raised exceptions at every attempt) whose written artifacts
are regular files, and every prior directory state of regular files, the
loop produces a value and no exception escapes. -/
theorem retryLoopRun_eq_ok (R : Nat → List String → ProcOutcome × Dir)
    (S : Nat → List String → Nat → List String) (pool : List String)
    (k minv m : Nat)
    (hR : ∀ attempt objs, regularDir (R attempt objs).2 = true) :
    ∀ (l : List Nat) (objs : List String) (dir : Dir), regularDir dir = true →
      retryLoopRun R S pool k minv m l objs dir =
        Except.ok (retryLoop R S pool k minv m l objs dir) := by
  intro l
  induction l with
  | nil => intro objs dir _; rfl
  | cons a rest ih =>
    intro objs dir hdir
    simp only [retryLoopRun, retryLoop, handleRenderExceptions_run,
      clearDir_regular dir hdir,
      ih (retryNext S pool k m a objs) (R a objs).2 (hR a objs), bind,
      Except.bind, pure, Except.pure]
    split <;> rfl


/-- The validation gate accepts a directory exactly when it holds a
`ground_truth.mp4` entry whose byte size strictly exceeds the
threshold. -/
theorem artifactValid_true_iff (d : Dir) (minv : Nat) :
    artifactValid d minv = true ↔
      ∃ e, findFile d "ground_truth.mp4" = some e ∧ minv < e.size := by
  unfold artifactValid
  cases h : findFile d "ground_truth.mp4" with
  | none => simp
  | some e => simp [h]

/-- If the last recorded attempt failed validation, the loop returned
`False`. -/
theorem retryLoop_last_invalid_false (R : Nat → List String → ProcOutcome × Dir)
    (S : Nat → List String → Nat → List String) (pool : List String)
    (k minv m : Nat) (l : List Nat) (objs : List String) (dir : Dir)
    (i : Nat) (arec : AttemptRecord)
    (hg : (retryLoop R S pool k minv m l objs dir).2.2[i]? = some arec)
    (hlen : (retryLoop R S pool k minv m l objs dir).2.2.length = i + 1)
    (hval : arec.valid = false) :
    (retryLoop R S pool k minv m l objs dir).1 = false := by
  by_contra hok
  rw [Bool.not_eq_false] at hok
  obtain ⟨r, hr, hrv⟩ := (retryLoop_true_iff R S pool k minv m l objs dir).mp hok
  obtain ⟨j, hj⟩ := List.mem_iff_getElem?.mp hr
  have hjlen : j < i + 1 := by
    rw [← hlen]
    exact (List.getElem?_eq_some.mp hj).1
  rcases Nat.lt_or_ge j i with hji | hji
  · have := retryLoop_not_last_invalid R S pool k minv m l objs dir j r hj
      (by rw [hlen]; omega)
    rw [this] at hrv
    exact Bool.false_ne_true hrv
  · have hij : j = i := by omega
    subst hij
    rw [hj] at hg
    cases hg
    rw [hval] at hrv
    exact Bool.false_ne_true hrv

/-- C2.  For every call to `render_with_retry` with retry bound
`max_retries`, the renderer is invoked at most `max_retries` times (the
trace has at most that many attempts), the call returns `False` exactly
when every performed attempt failed validation, and in that case all
`max_retries` attempts were performed before the terminal `False` was
returned. -/
theorem render_with_retry_bounded_retries
    (render : Nat → List String → ProcOutcome × Dir)
    (sample : Nat → List String → Nat → List String)
    (object_paths all_objects : List String) (output_dir : Dir)
    (num_objects min_video_size max_retries : Nat) :
    (render_with_retry render sample object_paths all_objects output_dir
      num_objects min_video_size max_retries).2.2.length ≤ max_retries ∧
    ((render_with_retry render sample object_paths all_objects output_dir
      num_objects min_video_size max_retries).1 = false ↔
      ∀ arec ∈ (render_with_retry render sample object_paths all_objects output_dir
        num_objects min_video_size max_retries).2.2, arec.valid = false) ∧
    ((render_with_retry render sample object_paths all_objects output_dir
      num_objects min_video_size max_retries).1 = false →
      (render_with_retry render sample object_paths all_objects output_dir
        num_objects min_video_size max_retries).2.2.length = max_retries) := by
  refine ⟨?_, ?_, ?_⟩
  · simpa using retryLoop_trace_length_le render sample all_objects num_objects
      min_video_size max_retries (List.range max_retries) object_paths output_dir
  · simp only [render_with_retry]
    rw [← Bool.not_eq_true, retryLoop_true_iff render sample all_objects
      num_objects min_video_size max_retries (List.range max_retries) object_paths
      output_dir]
    push_neg
    constructor
    · intro h arec ha
      exact Bool.not_eq_true _ ▸ Bool.eq_false_iff.mpr (h arec ha)
    · intro h arec ha
      rw [h arec ha]
      exact Bool.false_ne_true
  · intro h
    simpa using retryLoop_false_trace_length render sample all_objects num_objects
      min_video_size max_retries (List.range max_retries) object_paths output_dir h

/-- C3.  An attempt counts as successful only if the invocation returned
`True` AND the file `ground_truth.mp4` exists in the output directory
AND its byte size strictly exceeds `min_video_size`; an attempt whose
subprocess reported success but whose artifact is missing or undersized
is a failed attempt, and when attempts remain it is followed by a
further recorded attempt. -/
theorem render_with_retry_validation_gate
    (render : Nat → List String → ProcOutcome × Dir)
    (sample : Nat → List String → Nat → List String)
    (object_paths all_objects : List String) (output_dir : Dir)
    (num_objects min_video_size max_retries i : Nat) (arec : AttemptRecord)
    (hg : (render_with_retry render sample object_paths all_objects output_dir
      num_objects min_video_size max_retries).2.2[i]? = some arec) :
    (arec.valid = true ↔
      render_video_task arec.outcome = true ∧
      ∃ e, findFile arec.written "ground_truth.mp4" = some e ∧
        min_video_size < e.size) ∧
    (arec.valid = false → i + 1 < max_retries →
      i + 1 < (render_with_retry render sample object_paths all_objects output_dir
        num_objects min_video_size max_retries).2.2.length) := by
  constructor
  · obtain ⟨attempt, -, -, -, hval⟩ := retryLoop_get_shape render sample all_objects
      num_objects min_video_size max_retries (List.range max_retries) object_paths
      output_dir i arec hg
    rw [hval, Bool.and_eq_true, artifactValid_true_iff]
  · intro hvalid hrem
    simp only [render_with_retry] at hg ⊢
    by_contra hnogrow
    push_neg at hnogrow
    have hi : i < (retryLoop render sample all_objects num_objects min_video_size
        max_retries (List.range max_retries) object_paths output_dir).2.2.length :=
      (List.getElem?_eq_some.mp hg).1
    have hlen : (retryLoop render sample all_objects num_objects min_video_size
        max_retries (List.range max_retries) object_paths
        output_dir).2.2.length = i + 1 := by
      omega
    have hfalse := retryLoop_last_invalid_false render sample all_objects
      num_objects min_video_size max_retries (List.range max_retries) object_paths
      output_dir i arec hg hlen hvalid
    have hfull := retryLoop_false_trace_length render sample all_objects
      num_objects min_video_size max_retries (List.range max_retries) object_paths
      output_dir hfalse
    rw [List.length_range] at hfull
    omega

/-- Witness for `render_with_retry_validation_gate`: a concrete run whose
first attempt reports subprocess success yet leaves an undersized
`ground_truth.mp4`; the attempt is invalid and a second attempt is
recorded. -/
theorem render_with_retry_validation_gate_witness :
    ((render_with_retry
        (fun _ _ => (.completed 0 "RENDER_SUCCESS", [⟨"ground_truth.mp4", 10, false⟩]))
        (fun _ _ _ => ["b.glb"]) ["a.glb"] ["a.glb", "b.glb"] [] 1 50000 2).2.2[0]? =
      some ⟨["a.glb"], .completed 0 "RENDER_SUCCESS", [⟨"ground_truth.mp4", 10, false⟩], false⟩) ∧
    ((( ⟨["a.glb"], .completed 0 "RENDER_SUCCESS", [⟨"ground_truth.mp4", 10, false⟩], false⟩ :
        AttemptRecord).valid = true ↔
      render_video_task (ProcOutcome.completed 0 "RENDER_SUCCESS") = true ∧
      ∃ e, findFile [⟨"ground_truth.mp4", 10, false⟩] "ground_truth.mp4" = some e ∧
        50000 < e.size) ∧
    (( ⟨["a.glb"], .completed 0 "RENDER_SUCCESS", [⟨"ground_truth.mp4", 10, false⟩], false⟩ :
        AttemptRecord).valid = false → 0 + 1 < 2 →
      0 + 1 < (render_with_retry
        (fun _ _ => (.completed 0 "RENDER_SUCCESS", [⟨"ground_truth.mp4", 10, false⟩]))
        (fun _ _ _ => ["b.glb"]) ["a.glb"] ["a.glb", "b.glb"] [] 1 50000 2).2.2.length)) :=
  ⟨by rfl, render_with_retry_validation_gate
    (fun _ _ => (.completed 0 "RENDER_SUCCESS", [⟨"ground_truth.mp4", 10, false⟩]))
    (fun _ _ _ => ["b.glb"]) ["a.glb"] ["a.glb", "b.glb"] [] 1 50000 2 0
    ⟨["a.glb"], .completed 0 "RENDER_SUCCESS", [⟨"ground_truth.mp4", 10, false⟩], false⟩
    (by rfl)⟩

/-- C4.  `render_video_task` returns `True` iff the subprocess completed
with return code 0 and its standard output contains the success sentinel
`"RENDER_SUCCESS"`; a timeout, a crash, or any raised exception yields
`False`, and under the exception-level semantics the handler absorbs
both exception classes, so no exception reaches the caller. -/
theorem render_video_task_success_iff (o : ProcOutcome) :
    (render_video_task o = true ↔
      ∃ rc out, o = .completed rc out ∧ rc = 0 ∧ containsSentinel out = true) ∧
    render_video_task .timedOut = false ∧
    render_video_task .raised = false ∧
    handleRenderExceptions (render_video_task_run o) =
      Except.ok (render_video_task o) := by
  refine ⟨?_, rfl, rfl, handleRenderExceptions_run o⟩
  cases o with
  | completed rc out =>
    simp only [render_video_task, render_video_task_run, Bool.and_eq_true,
      decide_eq_true_eq]
    constructor
    · rintro ⟨h1, h2⟩
      exact ⟨rc, out, rfl, h1, h2⟩
    · rintro ⟨rc2, out2, heq, h1, h2⟩
      cases heq
      exact ⟨h1, h2⟩
  | timedOut =>
    simp only [render_video_task, render_video_task_run, Bool.false_eq_true,
      false_iff]
    rintro ⟨rc, out, heq, -, -⟩
    cases heq
  | raised =>
    simp only [render_video_task, render_video_task_run, Bool.false_eq_true,
      false_iff]
    rintro ⟨rc, out, heq, -, -⟩
    cases heq

/-- C5.  After a failed attempt `i` with attempts remaining, the next
attempt uses exactly the fresh draw `sample i all_objects
(min num_objects all_objects.length)` from the full shared pool; when
that draw satisfies the `random.sample` contract (length `k`, no
duplicates, members of the pool), the substituted subset has cardinality
`min num_objects all_objects.length`, is duplicate-free, and lies in the
pool.  The draw is an arbitrary function of the attempt index alone, so
nothing relates it to (or forces it away from) earlier draws. -/
theorem render_with_retry_resamples_on_failure
    (render : Nat → List String → ProcOutcome × Dir)
    (sample : Nat → List String → Nat → List String)
    (object_paths all_objects : List String) (output_dir : Dir)
    (num_objects min_video_size max_retries i : Nat)
    (arec arec2 : AttemptRecord)
    (hg : (render_with_retry render sample object_paths all_objects output_dir
      num_objects min_video_size max_retries).2.2[i]? = some arec)
    (hg2 : (render_with_retry render sample object_paths all_objects output_dir
      num_objects min_video_size max_retries).2.2[i + 1]? = some arec2)
    (hvalid : arec.valid = false)
    (hpool : all_objects ≠ [])
    (hdraw : (sample i all_objects (min num_objects all_objects.length)).length =
        min num_objects all_objects.length ∧
      (sample i all_objects (min num_objects all_objects.length)).Nodup ∧
      ∀ x ∈ sample i all_objects (min num_objects all_objects.length),
        x ∈ all_objects) :
    arec2.objs = sample i all_objects (min num_objects all_objects.length) ∧
    arec2.objs.length = min num_objects all_objects.length ∧
    arec2.objs.Nodup ∧
    ∀ x ∈ arec2.objs, x ∈ all_objects := by
  have hlen2 : i + 1 < (render_with_retry render sample object_paths all_objects
      output_dir num_objects min_video_size max_retries).2.2.length :=
    (List.getElem?_eq_some.mp hg2).1
  have hlelen : (render_with_retry render sample object_paths all_objects
      output_dir num_objects min_video_size max_retries).2.2.length ≤ max_retries := by
    simpa using retryLoop_trace_length_le render sample all_objects num_objects
      min_video_size max_retries (List.range max_retries) object_paths output_dir
  have him : i < max_retries := by omega
  have hobjs : arec2.objs = retryNext sample all_objects num_objects max_retries
      i arec.objs :=
    retryLoop_get_succ_objs render sample all_objects num_objects min_video_size
      max_retries (List.range max_retries) object_paths output_dir i arec arec2 i
      hg hg2 (by simpa using List.getElem?_range him)
  have hcond : i < max_retries - 1 ∧ all_objects ≠ [] := ⟨by omega, hpool⟩
  rw [retryNext, if_pos hcond] at hobjs
  exact ⟨hobjs, hobjs ▸ hdraw.1, hobjs ▸ hdraw.2.1, hobjs ▸ hdraw.2.2⟩

/-- Witness for `render_with_retry_resamples_on_failure`: a run of two
attempts over pool `["a.glb", "b.glb"]` whose renderer always times
out; the second attempt uses the fresh one-element draw `["b.glb"]`. -/
theorem render_with_retry_resamples_on_failure_witness :
    ((render_with_retry (fun _ _ => (.timedOut, [])) (fun _ _ _ => ["b.glb"])
        ["a.glb"] ["a.glb", "b.glb"] [] 1 50000 2).2.2[0]? =
      some ⟨["a.glb"], .timedOut, [], false⟩) ∧
    ((render_with_retry (fun _ _ => (.timedOut, [])) (fun _ _ _ => ["b.glb"])
        ["a.glb"] ["a.glb", "b.glb"] [] 1 50000 2).2.2[0 + 1]? =
      some ⟨["b.glb"], .timedOut, [], false⟩) ∧
    ((⟨["a.glb"], .timedOut, [], false⟩ : AttemptRecord).valid = false) ∧
    (["a.glb", "b.glb"] ≠ ([] : List String)) ∧
    ((["b.glb"] : List String).length = min 1 (["a.glb", "b.glb"] : List String).length ∧
      (["b.glb"] : List String).Nodup ∧
      ∀ x ∈ (["b.glb"] : List String), x ∈ (["a.glb", "b.glb"] : List String)) ∧
    ((⟨["b.glb"], .timedOut, [], false⟩ : AttemptRecord).objs = ["b.glb"] ∧
      (⟨["b.glb"], .timedOut, [], false⟩ : AttemptRecord).objs.length =
        min 1 (["a.glb", "b.glb"] : List String).length ∧
      (⟨["b.glb"], .timedOut, [], false⟩ : AttemptRecord).objs.Nodup ∧
      ∀ x ∈ (⟨["b.glb"], .timedOut, [], false⟩ : AttemptRecord).objs,
        x ∈ (["a.glb", "b.glb"] : List String)) :=
  ⟨by rfl, by rfl, by rfl, by decide, by decide,
    render_with_retry_resamples_on_failure (fun _ _ => (.timedOut, []))
      (fun _ _ _ => ["b.glb"]) ["a.glb"] ["a.glb", "b.glb"] [] 1 50000 2 0
      ⟨["a.glb"], .timedOut, [], false⟩ ⟨["b.glb"], .timedOut, [], false⟩
      (by rfl) (by rfl) (by rfl) (by decide) (by decide)⟩

/-- C6 (counterexample).  `render_with_retry` is not total over *every*
prior state of the output directory: with one attempt permitted and a
stale subdirectory in the output directory, the unhandled clearing loop
`for f in out.glob("*"): f.unlink()` raises `IsADirectoryError`, which
propagates out of the function — the exception-level semantics yields
`.error`, not a boolean. -/
theorem render_with_retry_run_raises_on_directory_entry :
    render_with_retry_run (fun _ _ => (.timedOut, [])) (fun _ _ _ => [])
        ["a.glb"] ["a.glb"] [⟨"stale", 0, true⟩] 1 50000 3 =
      Except.error PyErr.isADirectoryError := rfl

/-- C6 (amended).  For every renderer behaviour (completion, timeout,
raised exception) at every attempt, `render_with_retry` returns a
boolean and never raises, provided the prior output-directory state and
the artifacts each renderer invocation writes consist of regular files —
the only states the scheduler and renderer produce.  Under those
hypotheses its exception-level semantics is `Except.ok` of the value the
total function computes: every failure below the job level is absorbed
inside the function. -/
theorem render_with_retry_total_on_regular_dirs
    (render : Nat → List String → ProcOutcome × Dir)
    (sample : Nat → List String → Nat → List String)
    (object_paths all_objects : List String) (output_dir : Dir)
    (num_objects min_video_size max_retries : Nat)
    (hdir : regularDir output_dir = true)
    (hrender : ∀ attempt objs, regularDir (render attempt objs).2 = true) :
    render_with_retry_run render sample object_paths all_objects output_dir
        num_objects min_video_size max_retries =
      Except.ok (render_with_retry render sample object_paths all_objects
        output_dir num_objects min_video_size max_retries) :=
  retryLoopRun_eq_ok render sample all_objects num_objects min_video_size
    max_retries hrender (List.range max_retries) object_paths output_dir hdir

/-- Witness for `render_with_retry_total_on_regular_dirs`: a renderer
that always times out and writes nothing, run for three attempts from an
empty directory, terminates with `.ok` and the boolean `False`. -/
theorem render_with_retry_total_on_regular_dirs_witness :
    regularDir [] = true ∧
    (∀ attempt objs,
      regularDir ((fun (_ : Nat) (_ : List String) =>
        (ProcOutcome.timedOut, ([] : Dir))) attempt objs).2 = true) ∧
    render_with_retry_run (fun _ _ => (.timedOut, [])) (fun _ _ _ => [])
        ["a.glb"] ["a.glb"] [] 1 50000 3 =
      Except.ok (render_with_retry (fun _ _ => (.timedOut, []))
        (fun _ _ _ => []) ["a.glb"] ["a.glb"] [] 1 50000 3) :=
  ⟨rfl, fun _ _ => rfl,
    render_with_retry_total_on_regular_dirs (fun _ _ => (.timedOut, []))
      (fun _ _ _ => []) ["a.glb"] ["a.glb"] [] 1 50000 3 rfl
      (fun _ _ => rfl)⟩

/-- C10.  With `max_retries = 0` the loop body never runs:
`render_with_retry` returns `False`, performs no renderer invocation
(the trace is empty) and leaves the output directory exactly as it found
it. -/
theorem render_with_retry_zero_retries
    (render : Nat → List String → ProcOutcome × Dir)
    (sample : Nat → List String → Nat → List String)
    (object_paths all_objects : List String) (output_dir : Dir)
    (num_objects min_video_size : Nat) :
    render_with_retry render sample object_paths all_objects output_dir
      num_objects min_video_size 0 = (false, output_dir, []) := rfl

/-! ## DatasetAssembler / JobScheduler
(src/tasks/shape_extrapolation.py:94-140; occlusion_dynamics.py:94-138
inlines the identical collection loop)

`generate_dataset` submits one job per index `0, …, num_samples - 1`,
collects the job results in completion order, and converts them to
`TaskPair` records.  Oracles: `outcome i` — the boolean `_render_one`
(that is, `render_with_retry`) produced for job `i`; `order` — the
completion order in which `as_completed` yields the futures (a
permutation of the submitted indices); `promptChoice` — the index
`random.choice` picks into the prompt template list for a given task id;
`loadImage` — the PIL image decoded from a path. -/

/-- PIL image model: mode, dimensions, and pixel colors. -/
structure PILImage where
  mode : String
  width : Nat
  height : Nat
  px : Nat → Nat → Nat × Nat × Nat

/-- `Image.new(mode, size, color)`: a solid-color image. -/
def imageNew (mode : String) (size : Nat × Nat) (color : Nat × Nat × Nat) :
    PILImage :=
  ⟨mode, size.1, size.2, fun _ _ => color⟩

/-- `img.convert("RGB")`. -/
def convertRGB (img : PILImage) : PILImage :=
  { img with mode := "RGB" }

/-- Modelled from the spec: `TaskPair` is declared in `core/schemas.py`,
which is not among the provided sources.  Per the spec's data model it
is the record `{task_id, domain/task_kind, prompt: text, first_image,
final_image, ground_truth_video: optional reference}`, with no video
reference unless one is supplied. -/
structure TaskPair where
  task_id : String
  domain : String
  prompt : String
  first_image : PILImage
  final_image : PILImage
  ground_truth_video : Option String := none

/-- The result dict `_render_one` returns:
`{"task_id": …, "output_dir": …, "success": …}`. -/
structure JobResult where
  task_id : String
  output_dir : String
  success : Bool
  deriving Repr, DecidableEq

/-- The prompt template list of `src/tasks/shape_extrapolation.py`. -/
def PROMPTS : List String :=
  ["A camera orbits 360 degrees around a 3D object. Given the first 75% of the video (270 degrees of rotation), predict what the object looks like from the remaining unseen angles. Generate the final 25% of frames showing the back side of the object.",
   "This video shows a 3D object being viewed from a camera that rotates around it. The video captures the first three-quarters of a full orbit. Predict the next-frame sequence that completes the remaining quarter of the orbit, revealing the previously unseen side of the object.",
   "A 3D object is filmed by a camera performing a circular orbit. You are shown 75% of the rotation. Extrapolate the object's appearance for the remaining 25% of angles to complete the full 360-degree view.",
   "Watch a camera slowly orbit around a single 3D object. The video shows 270 degrees of the orbit. Your task is to predict the final 90 degrees of rotation, showing what the back of the object looks like based on the geometry and textures visible so far.",
   "A single 3D object is captured by an orbiting camera. Given the majority of the orbit as context, generate the remaining frames that complete the full rotation around the object."]

/-- `get_prompt()` = `random.choice(PROMPTS)`, with the random draw
supplied as an index. -/
def get_prompt (idx : Nat) : String :=
  PROMPTS.getD (idx % PROMPTS.length) ""

/-- Decimal digit characters of `i`, most significant first (empty for
`i = 0`). -/
def decChars (i : Nat) : List Char :=
  ((Nat.digits 10 i).map Nat.digitChar).reverse

/-- Zero-pad a character list on the left to width `w`. -/
def padWidth (w : Nat) (l : List Char) : List Char :=
  List.replicate (w - l.length) '0' ++ l

/-- The job id `f"{domain}_{i:06d}"` assigned to the `i`-th submitted
job (src/tasks/shape_extrapolation.py:113). -/
def taskId (domain : String) (i : Nat) : String :=
  domain ++ "_" ++ ⟨padWidth 6 (decChars i)⟩

/-- Numeric value of a decimal digit character. -/
def charVal (c : Char) : Nat :=
  c.toNat - '0'.toNat

/-- Parse a decimal character list, most significant first. -/
def parseDec (l : List Char) : Nat :=
  l.foldl (fun acc c => 10 * acc + charVal c) 0

/-- A run of leading zero characters contributes nothing when parsing
starts from accumulator `0`. -/
theorem parseDec_replicate_zero (k : Nat) (l : List Char) :
    parseDec (List.replicate k '0' ++ l) = parseDec l := by
  unfold parseDec
  rw [List.foldl_append]
  congr 1
  induction k with
  | zero => rfl
  | succ n ih => rw [List.replicate_succ, List.foldl_cons]; simpa [charVal] using ih

/-- Folding the parse step over a digit list (least significant first,
as `Nat.digits` yields it) recovers `Nat.ofDigits`. -/
theorem foldr_parse_eq_ofDigits (L : List Nat) (hL : ∀ d ∈ L, d < 10) :
    L.foldr (fun d acc => 10 * acc + charVal (Nat.digitChar d)) 0 =
      Nat.ofDigits 10 L := by
  induction L with
  | nil => simp [Nat.ofDigits]
  | cons d L ih =>
    have hd : d < 10 := hL d (List.mem_cons_self d L)
    have hrest : ∀ x ∈ L, x < 10 := fun x hx => hL x (List.mem_cons_of_mem d hx)
    have hcv : charVal (Nat.digitChar d) = d := by
      interval_cases d <;> decide
    rw [List.foldr_cons, ih hrest, Nat.ofDigits_cons, hcv]
    ring

/-- Parsing the decimal print of `i` gives back `i`. -/
theorem parseDec_decChars (i : Nat) : parseDec (decChars i) = i := by
  unfold parseDec decChars
  rw [List.foldl_reverse]
  have : ∀ (L : List Nat), (∀ d ∈ L, d < 10) →
      (L.map Nat.digitChar).foldr (fun x y => 10 * y + charVal x) 0 =
        Nat.ofDigits 10 L := by
    intro L hL
    rw [List.foldr_map]
    exact foldr_parse_eq_ofDigits L hL
  rw [this (Nat.digits 10 i) (fun d hd => Nat.digits_lt_base (by norm_num) hd)]
  exact_mod_cast Nat.ofDigits_digits 10 i

/-- Parsing the zero-padded decimal print of `i` gives back `i`. -/
theorem parseDec_padWidth (w i : Nat) : parseDec (padWidth w (decChars i)) = i := by
  unfold padWidth
  rw [parseDec_replicate_zero]
  exact parseDec_decChars i

/-- For a fixed domain, distinct job indices receive distinct job id
strings (`f"{domain}_{i:06d}"` is injective in `i`). -/
theorem taskId_injective (domain : String) : Function.Injective (taskId domain) := by
  intro i j h
  unfold taskId at h
  have hdata := congrArg String.data h
  simp only [String.data_append] at hdata
  have hlists : padWidth 6 (decChars i) = padWidth 6 (decChars j) :=
    List.append_cancel_left hdata
  calc i = parseDec (padWidth 6 (decChars i)) := (parseDec_padWidth 6 i).symm
    _ = parseDec (padWidth 6 (decChars j)) := by rw [hlists]
    _ = j := parseDec_padWidth 6 j

/-- `_result_to_pair` (src/tasks/shape_extrapolation.py:128-139): a
failed result becomes a pair of solid-black placeholder images of the
configured `image_size` with no video reference; a successful result
loads the two keyframes, converts them to RGB, and references the video
by path. -/
def _result_to_pair (image_size : Nat × Nat) (domain : String)
    (promptChoice : String → Nat) (loadImage : String → PILImage)
    (result : JobResult) : TaskPair :=
  if result.success = false then
    let blank := imageNew "RGB" image_size (0, 0, 0)
    { task_id := result.task_id, domain := domain,
      prompt := get_prompt (promptChoice result.task_id),
      first_image := blank, final_image := blank }
  else
    { task_id := result.task_id, domain := domain,
      prompt := get_prompt (promptChoice result.task_id),
      first_image := convertRGB (loadImage (result.output_dir ++ "/first_frame.png")),
      final_image := convertRGB (loadImage (result.output_dir ++ "/final_frame.png")),
      ground_truth_video := some (result.output_dir ++ "/ground_truth.mp4") }

/-- The collection loop of `_parallel_render`
(src/tasks/shape_extrapolation.py:107-126): walk the job results in
completion order, convert a successful result with `_result_to_pair` and
append it; count a failed result but append nothing. -/
def _parallel_render (image_size : Nat × Nat) (domain : String)
    (promptChoice : String → Nat) (loadImage : String → PILImage)
    (results : List JobResult) : List TaskPair :=
  results.filterMap (fun r =>
    if r.success then
      some (_result_to_pair image_size domain promptChoice loadImage r)
    else none)

/-- The `JobResult` of job index `i`: `_render_one` renders into
`work_dir/task_id` and reports the boolean outcome. -/
def _render_one_result (work_dir domain : String) (outcome : Nat → Bool)
    (i : Nat) : JobResult :=
  { task_id := taskId domain i,
    output_dir := work_dir ++ "/" ++ taskId domain i,
    success := outcome i }

/-- `generate_dataset` (src/tasks/shape_extrapolation.py:107-126):
submit jobs `0, …, num_samples - 1`, collect their results in the
completion order `order`, and assemble the returned pair list. -/
def generate_dataset (num_samples : Nat) (image_size : Nat × Nat)
    (domain work_dir : String) (outcome : Nat → Bool) (order : List Nat)
    (promptChoice : String → Nat) (loadImage : String → PILImage) :
    List TaskPair :=
  _parallel_render image_size domain promptChoice loadImage
    (order.map (_render_one_result work_dir domain outcome))

/-- `_result_to_pair` keeps the result's task id in both branches. -/
theorem _result_to_pair_task_id (image_size : Nat × Nat) (domain : String)
    (promptChoice : String → Nat) (loadImage : String → PILImage)
    (result : JobResult) :
    (_result_to_pair image_size domain promptChoice loadImage result).task_id =
      result.task_id := by
  unfold _result_to_pair
  split <;> rfl

/-- The collection loop keeps exactly the successful results, in order,
each converted by `_result_to_pair`. -/
theorem _parallel_render_eq_filter (image_size : Nat × Nat) (domain : String)
    (promptChoice : String → Nat) (loadImage : String → PILImage)
    (results : List JobResult) :
    _parallel_render image_size domain promptChoice loadImage results =
      (results.filter (fun r => r.success)).map
        (_result_to_pair image_size domain promptChoice loadImage) := by
  unfold _parallel_render
  induction results with
  | nil => rfl
  | cons r rest ih =>
    cases hs : r.success with
    | true => simp [List.filter_cons, hs, ih]
    | false => simp [List.filter_cons, hs, ih]

/-- C7.  Converting any failed job result yields a TaskPair whose first
and final images are the solid-black placeholder of exactly the
configured `image_size` and which carries no video reference. -/
theorem _result_to_pair_failed_placeholder (image_size : Nat × Nat)
    (domain : String) (promptChoice : String → Nat)
    (loadImage : String → PILImage) (result : JobResult)
    (hfail : result.success = false) :
    (_result_to_pair image_size domain promptChoice loadImage result).first_image =
      imageNew "RGB" image_size (0, 0, 0) ∧
    (_result_to_pair image_size domain promptChoice loadImage result).final_image =
      imageNew "RGB" image_size (0, 0, 0) ∧
    (_result_to_pair image_size domain promptChoice loadImage
      result).ground_truth_video = none ∧
    (_result_to_pair image_size domain promptChoice loadImage
      result).first_image.width = image_size.1 ∧
    (_result_to_pair image_size domain promptChoice loadImage
      result).first_image.height = image_size.2 ∧
    ∀ x y, (_result_to_pair image_size domain promptChoice loadImage
      result).first_image.px x y = (0, 0, 0) := by
  unfold _result_to_pair
  rw [if_pos hfail]
  exact ⟨rfl, rfl, rfl, rfl, rfl, fun _ _ => rfl⟩

/-- Witness for `_result_to_pair_failed_placeholder`: a concrete failed
result at resolution 1024×1024. -/
theorem _result_to_pair_failed_placeholder_witness :
    (JobResult.mk "tid" "odir" false).success = false ∧
    ((_result_to_pair (1024, 1024) "shape_extrapolation" (fun _ => 0)
        (fun _ => imageNew "RGB" (1024, 1024) (7, 7, 7))
        (JobResult.mk "tid" "odir" false)).first_image =
      imageNew "RGB" (1024, 1024) (0, 0, 0) ∧
    (_result_to_pair (1024, 1024) "shape_extrapolation" (fun _ => 0)
        (fun _ => imageNew "RGB" (1024, 1024) (7, 7, 7))
        (JobResult.mk "tid" "odir" false)).final_image =
      imageNew "RGB" (1024, 1024) (0, 0, 0) ∧
    (_result_to_pair (1024, 1024) "shape_extrapolation" (fun _ => 0)
        (fun _ => imageNew "RGB" (1024, 1024) (7, 7, 7))
        (JobResult.mk "tid" "odir" false)).ground_truth_video = none ∧
    (_result_to_pair (1024, 1024) "shape_extrapolation" (fun _ => 0)
        (fun _ => imageNew "RGB" (1024, 1024) (7, 7, 7))
        (JobResult.mk "tid" "odir" false)).first_image.width = (1024, 1024).1 ∧
    (_result_to_pair (1024, 1024) "shape_extrapolation" (fun _ => 0)
        (fun _ => imageNew "RGB" (1024, 1024) (7, 7, 7))
        (JobResult.mk "tid" "odir" false)).first_image.height = (1024, 1024).2 ∧
    ∀ x y, (_result_to_pair (1024, 1024) "shape_extrapolation" (fun _ => 0)
        (fun _ => imageNew "RGB" (1024, 1024) (7, 7, 7))
        (JobResult.mk "tid" "odir" false)).first_image.px x y = (0, 0, 0)) :=
  ⟨rfl, _result_to_pair_failed_placeholder (1024, 1024) "shape_extrapolation"
    (fun _ => 0) (fun _ => imageNew "RGB" (1024, 1024) (7, 7, 7))
    (JobResult.mk "tid" "odir" false) rfl⟩

/-- C1 (counterexample).  One submitted job whose rendering fails
terminally: `generate_dataset` returns the empty sequence, not one
(placeholder) TaskPair — the failed job is dropped from the returned
list (it is only counted in the progress tally). -/
theorem generate_dataset_drops_failed_job :
    (generate_dataset 1 (1024, 1024) "shape_extrapolation" "work"
        (fun _ => false) [0] (fun _ => 0)
        (fun _ => imageNew "RGB" (1024, 1024) (0, 0, 0))).length = 0 ∧
    ¬ (generate_dataset 1 (1024, 1024) "shape_extrapolation" "work"
        (fun _ => false) [0] (fun _ => 0)
        (fun _ => imageNew "RGB" (1024, 1024) (0, 0, 0))).length = 1 :=
  ⟨rfl, by intro h; exact absurd h (by decide)⟩

/-- C1 (amended).  For every run of `generate_dataset` with
`num_samples` submitted jobs, collected in any completion order, the
returned sequence contains exactly one TaskPair per *successful* job —
its job ids are exactly the successful jobs' ids in completion order,
with no duplicates and no omissions among the successes — while every
job that failed terminally is dropped from the returned sequence. -/
theorem generate_dataset_one_pair_per_successful_job
    (num_samples : Nat) (image_size : Nat × Nat) (domain work_dir : String)
    (outcome : Nat → Bool) (order : List Nat)
    (promptChoice : String → Nat) (loadImage : String → PILImage)
    (horder : order.Perm (List.range num_samples)) :
    (generate_dataset num_samples image_size domain work_dir outcome order
      promptChoice loadImage).length =
      ((List.range num_samples).filter (fun i => outcome i)).length ∧
    (generate_dataset num_samples image_size domain work_dir outcome order
      promptChoice loadImage).map TaskPair.task_id =
      (order.filter (fun i => outcome i)).map (taskId domain) ∧
    ((generate_dataset num_samples image_size domain work_dir outcome order
      promptChoice loadImage).map TaskPair.task_id).Nodup ∧
    ∀ p ∈ generate_dataset num_samples image_size domain work_dir outcome order
      promptChoice loadImage, ∃ i, i < num_samples ∧ outcome i = true ∧
      p.task_id = taskId domain i ∧
      p = _result_to_pair image_size domain promptChoice loadImage
        (_render_one_result work_dir domain outcome i) := by
  have hpr : generate_dataset num_samples image_size domain work_dir outcome order
      promptChoice loadImage =
      (order.filter (fun i => outcome i)).map
        (fun i => _result_to_pair image_size domain promptChoice loadImage
          (_render_one_result work_dir domain outcome i)) := by
    unfold generate_dataset
    rw [_parallel_render_eq_filter, List.filter_map, List.map_map]
    rfl
  have hids : (generate_dataset num_samples image_size domain work_dir outcome
      order promptChoice loadImage).map TaskPair.task_id =
      (order.filter (fun i => outcome i)).map (taskId domain) := by
    rw [hpr, List.map_map]
    refine List.map_congr_left (fun i _ => ?_)
    simp only [Function.comp_apply, _result_to_pair_task_id]
    rfl
  have hnodup : (order.filter (fun i => outcome i)).Nodup :=
    (horder.nodup_iff.mpr (List.nodup_range num_samples)).filter _
  refine ⟨?_, hids, ?_, ?_⟩
  · rw [hpr, List.length_map]
    exact (horder.filter (fun i => outcome i)).length_eq
  · rw [hids]
    exact hnodup.map (taskId_injective domain)
  · intro p hp
    rw [hpr] at hp
    obtain ⟨i, hi, rfl⟩ := List.mem_map.mp hp
    obtain ⟨hio, hout⟩ := List.mem_filter.mp hi
    refine ⟨i, ?_, hout, ?_, rfl⟩
    · exact List.mem_range.mp (horder.mem_iff.mp hio)
    · rw [_result_to_pair_task_id]
      rfl

/-- Witness for `generate_dataset_one_pair_per_successful_job`: two
jobs, the first succeeds and the second fails, collected in reversed
completion order. -/
theorem generate_dataset_one_pair_per_successful_job_witness :
    ([1, 0] : List Nat).Perm (List.range 2) ∧
    ((generate_dataset 2 (8, 8) "shape_extrapolation" "work"
      (fun i => decide (i = 0)) [1, 0] (fun _ => 0)
      (fun _ => imageNew "RGB" (8, 8) (0, 0, 0))).length =
      ((List.range 2).filter (fun i => decide (i = 0))).length ∧
    (generate_dataset 2 (8, 8) "shape_extrapolation" "work"
      (fun i => decide (i = 0)) [1, 0] (fun _ => 0)
      (fun _ => imageNew "RGB" (8, 8) (0, 0, 0))).map TaskPair.task_id =
      (([1, 0] : List Nat).filter (fun i => decide (i = 0))).map
        (taskId "shape_extrapolation") ∧
    ((generate_dataset 2 (8, 8) "shape_extrapolation" "work"
      (fun i => decide (i = 0)) [1, 0] (fun _ => 0)
      (fun _ => imageNew "RGB" (8, 8) (0, 0, 0))).map TaskPair.task_id).Nodup ∧
    ∀ p ∈ generate_dataset 2 (8, 8) "shape_extrapolation" "work"
      (fun i => decide (i = 0)) [1, 0] (fun _ => 0)
      (fun _ => imageNew "RGB" (8, 8) (0, 0, 0)), ∃ i, i < 2 ∧
      decide (i = 0) = true ∧
      p.task_id = taskId "shape_extrapolation" i ∧
      p = _result_to_pair (8, 8) "shape_extrapolation" (fun _ => 0)
        (fun _ => imageNew "RGB" (8, 8) (0, 0, 0))
        (_render_one_result "work" "shape_extrapolation"
          (fun i => decide (i = 0)) i)) :=
  ⟨by decide, generate_dataset_one_pair_per_successful_job 2 (8, 8)
    "shape_extrapolation" "work" (fun i => decide (i = 0)) [1, 0] (fun _ => 0)
    (fun _ => imageNew "RGB" (8, 8) (0, 0, 0)) (by decide)⟩

/-! ## AssetResolver: `load_objects` (src/shared/objects.py:11-52)

Oracles: `fsExists p` — `Path(p).exists()`; `readLines p` — the raw
lines of the file at `p`; `resolveUid u` — `uid_to_path.get(u)`, the
objaverse batch-resolution result for identifier `u` (`none` when the
service returned no entry).  String helpers are implemented by
structural recursion over the character list so that they compute. -/

/-- The two exception classes `load_objects` raises. -/
inductive LoadError where
  | fileNotFoundError (msg : String)
  | valueError (msg : String)
  deriving Repr, DecidableEq

/-- The default asset list path `_PACKAGE_DIR / "assets" / "good_objects.txt"`. -/
def _DEFAULT_ASSETS : String := "assets/good_objects.txt"

/-- `Path(object_list) if object_list else _DEFAULT_ASSETS`. -/
def loadPath (object_list : Option String) : String :=
  match object_list with
  | some p => p
  | none => _DEFAULT_ASSETS

/-- Python's `line.strip()`: drop whitespace from both ends. -/
def strTrim (s : String) : String :=
  ⟨((s.data.dropWhile Char.isWhitespace).reverse.dropWhile
      Char.isWhitespace).reverse⟩

/-- `[line.strip() for line in f if line.strip()]`: the stripped
non-blank lines. -/
def stripLines (raw : List String) : List String :=
  (raw.map strTrim).filter (fun l => l ≠ "")

/-- Python's `suffix in s` for a single character. -/
def strContainsChar (s : String) (c : Char) : Bool :=
  s.data.contains c

/-- Python's `s.endswith(suffix)`. -/
def strEndsWith (s suffix : String) : Bool :=
  startsChars suffix.data.reverse s.data.reverse

/-- The content sniff on the first entry:
`"/" in sample or sample.endswith(".glb")`. -/
def isPathFormat (sample : String) : Bool :=
  strContainsChar sample '/' || strEndsWith sample ".glb"

/-- Path branch: `[p for p in lines if Path(p).exists()]`. -/
def pathBranchValid (fsExists : String → Bool) (lines : List String) :
    List String :=
  lines.filter (fun p => fsExists p)

/-- UID branch: resolve each identifier and keep those that resolved to
a non-empty path naming an existing file (`if p and Path(p).exists()`). -/
def uidBranchValid (fsExists : String → Bool)
    (resolveUid : String → Option String) (lines : List String) :
    List String :=
  lines.filterMap (fun uid =>
    match resolveUid uid with
    | some p => if p ≠ "" ∧ fsExists p = true then some p else none
    | none => none)

/-- The usable entries of a non-empty stripped line list, per the
content sniff on its first entry. -/
def validEntries (fsExists : String → Bool)
    (resolveUid : String → Option String) (lines : List String) :
    List String :=
  match lines with
  | [] => []
  | sample :: _ =>
    if isPathFormat sample then pathBranchValid fsExists lines
    else uidBranchValid fsExists resolveUid lines

/-- `load_objects` (src/shared/objects.py:11-52). -/
def load_objects (fsExists : String → Bool) (readLines : String → List String)
    (resolveUid : String → Option String) (object_list : Option String) :
    Except LoadError (List String) :=
  let path := loadPath object_list
  if fsExists path = false then
    .error (.fileNotFoundError ("Object list not found: " ++ path))
  else
    let lines := stripLines (readLines path)
    if lines = [] then
      .error (.valueError ("Empty object list: " ++ path))
    else
      let valid := validEntries fsExists resolveUid lines
      if valid = [] then
        .error (.fileNotFoundError
          (if isPathFormat (lines.headD "") then
            "No valid .glb files found from " ++ path
          else "No objects could be resolved. Check Objaverse cache."))
      else .ok valid

/-! ## Render-time degeneracy gate
(`import_single_object`, src/shared/blender_render.py:148-166) -/

/-- The geometry data the Blender-side gate inspects: total vertex
count across the imported meshes and the largest bounding-box
dimension. -/
structure MeshData where
  totalVerts : Nat
  maxExtent : Rat
  deriving Repr, DecidableEq

/-- The degeneracy gate of `import_single_object`: the asset is rejected
(`REJECT: too few vertices` / `REJECT: degenerate object`) unless it has
at least 4 vertices and a largest bounding-box dimension of at least
0.001. -/
def import_single_object_accepts (m : MeshData) : Bool :=
  !(decide (m.totalVerts < 4)) && !(decide (m.maxExtent < 1 / 1000))

/-- Discriminator: did `load_objects` fail with `FileNotFoundError`? -/
def isFileNotFound : Except LoadError (List String) → Bool
  | .error (.fileNotFoundError _) => true
  | _ => false

/-- Every usable entry passed the `Path(p).exists()` check. -/
theorem validEntries_fsExists (fsExists : String → Bool)
    (resolveUid : String → Option String) (lines : List String) :
    ∀ p ∈ validEntries fsExists resolveUid lines, fsExists p = true := by
  intro p hp
  cases lines with
  | nil => simp [validEntries] at hp
  | cons sample rest =>
    simp only [validEntries] at hp
    by_cases hf : isPathFormat sample = true
    · rw [if_pos hf] at hp
      exact (List.mem_filter.mp hp).2
    · rw [if_neg hf] at hp
      obtain ⟨uid, -, heq⟩ := List.mem_filterMap.mp hp
      cases hr : resolveUid uid with
      | none => rw [hr] at heq; cases heq
      | some q =>
        rw [hr] at heq
        dsimp only at heq
        by_cases hc : q ≠ "" ∧ fsExists q = true
        · rw [if_pos hc] at heq
          cases heq
          exact hc.2
        · rw [if_neg hc] at heq
          cases heq

/-- Inversion of the success case of `load_objects`: the returned list
is the non-empty list of usable entries of the stripped lines. -/
theorem load_objects_ok_inv (fsExists : String → Bool)
    (readLines : String → List String) (resolveUid : String → Option String)
    (object_list : Option String) (l : List String)
    (h : load_objects fsExists readLines resolveUid object_list = .ok l) :
    l = validEntries fsExists resolveUid
      (stripLines (readLines (loadPath object_list))) ∧
    l ≠ [] ∧ ∀ p ∈ l, fsExists p = true := by
  simp only [load_objects] at h
  by_cases h1 : fsExists (loadPath object_list) = false
  · rw [if_pos h1] at h
    exact absurd h (by simp)
  · rw [if_neg h1] at h
    by_cases h2 : stripLines (readLines (loadPath object_list)) = []
    · rw [if_pos h2] at h
      exact absurd h (by simp)
    · rw [if_neg h2] at h
      by_cases h3 : validEntries fsExists resolveUid
          (stripLines (readLines (loadPath object_list))) = []
      · rw [if_pos h3] at h
        exact absurd h (by simp)
      · rw [if_neg h3] at h
        have hl : validEntries fsExists resolveUid
            (stripLines (readLines (loadPath object_list))) = l :=
          Except.ok.inj h
        subst hl
        exact ⟨rfl, h3, validEntries_fsExists fsExists resolveUid _⟩

/-- C8 (counterexample).  An existing but blank object-list file makes
`load_objects` raise `ValueError`, not a `FileNotFoundError`/NotFound
condition. -/
theorem load_objects_empty_raises_value_error :
    load_objects (fun p => p == "list.txt") (fun _ => ["", "  "]) (fun _ => none)
        (some "list.txt") =
      .error (.valueError "Empty object list: list.txt") ∧
    isFileNotFound (load_objects (fun p => p == "list.txt")
        (fun _ => ["", "  "]) (fun _ => none) (some "list.txt")) = false :=
  ⟨rfl, rfl⟩

/-- C8 (amended).  `load_objects` fails in exactly three cases — the
source file missing (`FileNotFoundError`), the file holding no non-blank
line (`ValueError`), and zero entries resolving to usable local files
(`FileNotFoundError`) — and in every remaining case (source present,
some non-blank line, some usable entry) it returns `.ok` with the
non-empty ordered list of usable entries, each verified to exist;
the final conjunct inverts the success case. -/
theorem load_objects_failure_modes (fsExists : String → Bool)
    (readLines : String → List String) (resolveUid : String → Option String)
    (object_list : Option String) :
    (fsExists (loadPath object_list) = false →
      load_objects fsExists readLines resolveUid object_list =
        .error (.fileNotFoundError
          ("Object list not found: " ++ loadPath object_list))) ∧
    (fsExists (loadPath object_list) = true →
      stripLines (readLines (loadPath object_list)) = [] →
      load_objects fsExists readLines resolveUid object_list =
        .error (.valueError ("Empty object list: " ++ loadPath object_list))) ∧
    (fsExists (loadPath object_list) = true →
      stripLines (readLines (loadPath object_list)) ≠ [] →
      validEntries fsExists resolveUid
        (stripLines (readLines (loadPath object_list))) = [] →
      isFileNotFound (load_objects fsExists readLines resolveUid object_list) =
        true) ∧
    (fsExists (loadPath object_list) = true →
      stripLines (readLines (loadPath object_list)) ≠ [] →
      validEntries fsExists resolveUid
        (stripLines (readLines (loadPath object_list))) ≠ [] →
      load_objects fsExists readLines resolveUid object_list =
        .ok (validEntries fsExists resolveUid
          (stripLines (readLines (loadPath object_list)))) ∧
      validEntries fsExists resolveUid
        (stripLines (readLines (loadPath object_list))) ≠ [] ∧
      ∀ p ∈ validEntries fsExists resolveUid
        (stripLines (readLines (loadPath object_list))), fsExists p = true) ∧
    (∀ l, load_objects fsExists readLines resolveUid object_list = .ok l →
      l = validEntries fsExists resolveUid
        (stripLines (readLines (loadPath object_list))) ∧
      l ≠ [] ∧ ∀ p ∈ l, fsExists p = true) := by
  refine ⟨?_, ?_, ?_, ?_, fun l h => load_objects_ok_inv fsExists readLines
    resolveUid object_list l h⟩
  · intro h1
    simp only [load_objects]
    rw [if_pos h1]
  · intro h1 h2
    simp only [load_objects]
    rw [if_neg (by simp [h1]), if_pos h2]
  · intro h1 h2 h3
    simp only [load_objects]
    rw [if_neg (by simp [h1]), if_neg h2, if_pos h3]
    rfl
  · intro h1 h2 h3
    refine ⟨?_, h3, validEntries_fsExists fsExists resolveUid _⟩
    simp only [load_objects]
    rw [if_neg (by simp [h1]), if_neg h2, if_neg h3]

/-- C9 (counterexample).  `load_objects` performs no geometry check: it
happily returns an asset with a single vertex (degenerate), which the
render-time gate `import_single_object` rejects. -/
theorem load_objects_member_can_be_degenerate :
    load_objects (fun p => p == "objs.txt" || p == "deg.glb")
        (fun _ => ["deg.glb"]) (fun _ => none) (some "objs.txt") =
      .ok ["deg.glb"] ∧
    import_single_object_accepts ((fun _ => (⟨1, 0⟩ : MeshData)) "deg.glb") =
      false :=
  ⟨rfl, rfl⟩

/-- C9 (amended).  Every member of the list `load_objects` returns is
verified to exist on the filesystem; the non-degeneracy conditions
(minimum vertex count 4, minimum bounding-box extent 1/1000) are checked
only at render time by `import_single_object`, whose gate accepts
exactly the meshes meeting both minima. -/
theorem load_objects_members_exist_gate_at_render (fsExists : String → Bool)
    (readLines : String → List String) (resolveUid : String → Option String)
    (object_list : Option String) (l : List String)
    (hok : load_objects fsExists readLines resolveUid object_list = .ok l) :
    (∀ p ∈ l, fsExists p = true) ∧
    (∀ m : MeshData, import_single_object_accepts m = true ↔
      4 ≤ m.totalVerts ∧ (1 : ℚ) / 1000 ≤ m.maxExtent) := by
  refine ⟨(load_objects_ok_inv fsExists readLines resolveUid object_list l
    hok).2.2, fun m => ?_⟩
  unfold import_single_object_accepts
  rw [Bool.and_eq_true, Bool.not_eq_true', Bool.not_eq_true',
    decide_eq_false_iff_not, decide_eq_false_iff_not, Nat.not_lt, not_lt]

/-- Witness for `load_objects_members_exist_gate_at_render`: a concrete
successful UID-branch run. -/
theorem load_objects_members_exist_gate_at_render_witness :
    load_objects (fun p => p == "objs.txt" || p == "/x/a.glb")
        (fun _ => ["u1", "u2"])
        (fun u => if u == "u1" then some "/x/a.glb" else none)
        (some "objs.txt") = .ok ["/x/a.glb"] ∧
    ((∀ p ∈ (["/x/a.glb"] : List String),
        (fun p => p == "objs.txt" || p == "/x/a.glb") p = true) ∧
      (∀ m : MeshData, import_single_object_accepts m = true ↔
        4 ≤ m.totalVerts ∧ (1 : ℚ) / 1000 ≤ m.maxExtent)) :=
  ⟨rfl, load_objects_members_exist_gate_at_render
    (fun p => p == "objs.txt" || p == "/x/a.glb") (fun _ => ["u1", "u2"])
    (fun u => if u == "u1" then some "/x/a.glb" else none) (some "objs.txt")
    ["/x/a.glb"] rfl⟩
end Objaverse
